import Mathlib

/-!
Verification of the smart-noc repository against its specification.

The repository ships the frontend environment-selection code (`config.js`
and its variants), which is embedded below directly from the source.
The monitoring core (health state machine, scan scheduler, diagnostic
engine, store adapter) is described by the specification but its source
is not part of the repository snapshot; those components are modelled
from the spec, as marked on each definition.
-/

/-! ## Environment selection (embedded from src/config.js and variants) -/

namespace ConfigRender

/-- Development URL constant from `src/config.js`. -/
def development : String := "http://localhost:8000"

/-- Production URL constant from `src/config.js` (Render backend). -/
def production : String := "https://smart-noc.onrender.com"

/-- `getBaseURL` from `src/config.js`: localhost detection, else production. -/
def getBaseURL (hostname : String) : String :=
  if hostname = "localhost" ∨ hostname = "127.0.0.1" ∨ hostname = "" then development
  else production

end ConfigRender

namespace ConfigAmber

/-- Development URL constant from the AmberIT variant of config.js. -/
def development : String := "http://localhost:8000"

/-- Production URL constant from the AmberIT variant of config.js. -/
def production : String := "https://your-amberit-server.com"

/-- `getBaseURL` from the AmberIT variant: same localhost detection. -/
def getBaseURL (hostname : String) : String :=
  if hostname = "localhost" ∨ hostname = "127.0.0.1" ∨ hostname = "" then development
  else production

end ConfigAmber

namespace ConfigCustom

/-- Development URL constant from the localStorage-aware variant of config.js. -/
def development : String := "http://localhost:8000"

/-- Production URL constant from the localStorage-aware variant of config.js. -/
def production : String := "https://smart-noc.onrender.com"

/-- `getBaseURL` from the localStorage-aware variant: a truthy stored
`NOC_CUSTOM_API` value (non-null, non-empty) is returned verbatim;
otherwise localhost detection, else production.  The stored value is
modelled as `Option String` (`none` is JavaScript `null`; the empty
string is falsy). -/
def getBaseURL (customUrl : Option String) (hostname : String) : String :=
  match customUrl with
  | some u =>
      if u ≠ "" then u
      else if hostname = "localhost" ∨ hostname = "127.0.0.1" ∨ hostname = "" then development
      else production
  | none =>
      if hostname = "localhost" ∨ hostname = "127.0.0.1" ∨ hostname = "" then development
      else production

end ConfigCustom

/-! ## Health State Machine (modelled from the spec, section 4.2) -/

/-- Modelled from the spec: the `LinkState` enumeration of the data model
(the health state machine source is not in the repository snapshot). -/
inductive LinkState
  | UNKNOWN
  | ONLINE
  | DEGRADED
  | CRITICAL_OUTAGE
  deriving DecidableEq, Repr

/-- Modelled from the spec: a per-cycle probe result as seen by the state
machine — reachability outcome and whether the health query succeeded with
nominal values (error classification does not change state-machine logic
beyond success or failure). -/
structure ProbeResult where
  reachOk : Bool
  healthNominal : Bool
  deriving DecidableEq, Repr

/-- Modelled from the spec: the per-link mutable record the state machine
maintains — current state, consecutive-failure counter, consecutive-success
counter. -/
structure LinkRecord where
  state : LinkState
  consecFail : Nat
  consecSucc : Nat
  deriving DecidableEq, Repr

/-- Modelled from the spec: the configured thresholds of the state machine. -/
structure HealthConfig where
  failThreshold : Nat
  successThreshold : Nat
  deriving DecidableEq, Repr

/-- Modelled from the spec: the default thresholds used in the worked
example of section 8 (fail 3, success 1). -/
def defaultConfig : HealthConfig := ⟨3, 1⟩

/-- Modelled from the spec: a link with no probe data yet. -/
def initRecord : LinkRecord := ⟨.UNKNOWN, 0, 0⟩

/-- Modelled from the spec: one transition of the health state machine on a
single probe result, following the transition policy of section 4.2:
first success moves UNKNOWN to ONLINE; a reachable probe with a bad health
query degrades an ONLINE link; recovery to ONLINE needs the
consecutive-success threshold of nominal probes; a reachability failure
escalates any state to CRITICAL_OUTAGE once the consecutive-failure counter
reaches the failure threshold, while a single failure of an ONLINE link only
degrades it. -/
def step (cfg : HealthConfig) (r : LinkRecord) (p : ProbeResult) : LinkRecord :=
  if p.reachOk then
    let cs := r.consecSucc + 1
    let nextState :=
      match r.state with
      | .UNKNOWN => .ONLINE
      | .ONLINE => if p.healthNominal then .ONLINE else .DEGRADED
      | .DEGRADED =>
          if p.healthNominal = true ∧ cfg.successThreshold ≤ cs then .ONLINE else .DEGRADED
      | .CRITICAL_OUTAGE =>
          if p.healthNominal = true ∧ cfg.successThreshold ≤ cs then .ONLINE
          else .CRITICAL_OUTAGE
    { state := nextState, consecFail := 0,
      consecSucc := if p.healthNominal then cs else 0 }
  else
    let cf := r.consecFail + 1
    let nextState :=
      if cfg.failThreshold ≤ cf then .CRITICAL_OUTAGE
      else
        match r.state with
        | .ONLINE => .DEGRADED
        | s => s
    { state := nextState, consecFail := cf, consecSucc := 0 }

/-- Modelled from the spec: feeding a stream of probe results through the
state machine. -/
def run (cfg : HealthConfig) (r : LinkRecord) (ps : List ProbeResult) : LinkRecord :=
  ps.foldl (step cfg) r

/-- A fully successful probe: reachable and health nominal. -/
def goodProbe : ProbeResult := ⟨true, true⟩

/-- A reachability failure. -/
def failProbe : ProbeResult := ⟨false, false⟩

/-- Helper for the longest run of consecutive reachability failures:
`cur` is the length of the run currently open, `best` the best closed run. -/
def maxRunAux : Nat → Nat → List ProbeResult → Nat
  | cur, best, [] => max cur best
  | cur, best, p :: ps =>
      if p.reachOk then maxRunAux 0 (max cur best) ps else maxRunAux (cur + 1) best ps

/-- The longest run of consecutive reachability failures in a probe stream. -/
def maxConsecFails (ps : List ProbeResult) : Nat := maxRunAux 0 0 ps

theorem run_nil (cfg : HealthConfig) (r : LinkRecord) : run cfg r [] = r := rfl

theorem run_cons (cfg : HealthConfig) (r : LinkRecord) (p : ProbeResult)
    (ps : List ProbeResult) : run cfg r (p :: ps) = run cfg (step cfg r p) ps := rfl

theorem run_append (cfg : HealthConfig) (r : LinkRecord) (xs ys : List ProbeResult) :
    run cfg r (xs ++ ys) = run cfg (run cfg r xs) ys :=
  List.foldl_append _ _ _ _

theorem maxRunAux_ge (ps : List ProbeResult) :
    ∀ cur best, max cur best ≤ maxRunAux cur best ps := by
  induction ps with
  | nil => intro cur best; simp [maxRunAux]
  | cons p ps ih =>
      intro cur best
      by_cases hp : p.reachOk
      · have h := ih 0 (max cur best)
        simp only [maxRunAux, hp, if_pos]
        omega
      · have h := ih (cur + 1) best
        simp only [maxRunAux, hp, if_neg]
        simp at h ⊢
        omega

/-- Key invariant: if no run of consecutive reachability failures reaches the
failure threshold (counting a partially accumulated run `cur` bounding the
record's counter), the state machine never reaches CRITICAL_OUTAGE. -/
theorem run_not_critical (cfg : HealthConfig) (ps : List ProbeResult) :
    ∀ (cur best : Nat) (r : LinkRecord),
      maxRunAux cur best ps < cfg.failThreshold →
      r.consecFail ≤ cur →
      r.state ≠ .CRITICAL_OUTAGE →
      (run cfg r ps).state ≠ .CRITICAL_OUTAGE := by
  induction ps with
  | nil => intro cur best r _ _ h3; simpa [run] using h3
  | cons p ps ih =>
      intro cur best r h1 h2 h3
      rw [run_cons]
      by_cases hp : p.reachOk
      · refine ih 0 (max cur best) (step cfg r p) ?_ ?_ ?_
        · simpa [maxRunAux, hp] using h1
        · simp [step, hp]
        · simp only [step, hp, if_pos]
          cases hr : r.state <;> simp_all <;> split <;> simp
      · have hge := maxRunAux_ge ps (cur + 1) best
        have h1' : maxRunAux (cur + 1) best ps < cfg.failThreshold := by
          simpa [maxRunAux, hp] using h1
        have hlt : r.consecFail + 1 < cfg.failThreshold := by
          have : cur + 1 ≤ maxRunAux (cur + 1) best ps := le_trans (by omega) hge
          omega
        refine ih (cur + 1) best (step cfg r p) h1' ?_ ?_
        · simp [step, hp]; omega
        · simp only [step, hp]
          simp only [Bool.false_eq_true, if_false]
          have hcond : ¬ cfg.failThreshold ≤ r.consecFail + 1 := by omega
          simp only [hcond, if_false]
          cases hr : r.state <;> simp_all

/-- Claim C1: the state machine reaches CRITICAL_OUTAGE only after the
configured consecutive-failure threshold of reachability failures in a row:
whenever a probe history drives the machine to CRITICAL_OUTAGE, that history
contains at least `failThreshold` consecutive failures. -/
theorem hsm_critical_only_after_threshold (cfg : HealthConfig) (ps : List ProbeResult)
    (h : (run cfg initRecord ps).state = .CRITICAL_OUTAGE) :
    cfg.failThreshold ≤ maxConsecFails ps := by
  by_contra hc
  exact run_not_critical cfg ps 0 0 initRecord (by simpa [maxConsecFails] using hc)
    (by simp [initRecord]) (by simp [initRecord]) h

/-- Witness for C1: three consecutive failures at the default thresholds do
reach CRITICAL_OUTAGE, and the theorem applies. -/
theorem hsm_critical_only_after_threshold_witness :
    (run defaultConfig initRecord [failProbe, failProbe, failProbe]).state =
      LinkState.CRITICAL_OUTAGE ∧
    defaultConfig.failThreshold ≤ maxConsecFails [failProbe, failProbe, failProbe] :=
  ⟨by decide, hsm_critical_only_after_threshold defaultConfig _ (by decide)⟩

theorem step_good (cfg : HealthConfig) (r : LinkRecord) :
    step cfg r goodProbe =
      { state :=
          match r.state with
          | .UNKNOWN => .ONLINE
          | .ONLINE => .ONLINE
          | .DEGRADED =>
              if cfg.successThreshold ≤ r.consecSucc + 1 then .ONLINE else .DEGRADED
          | .CRITICAL_OUTAGE =>
              if cfg.successThreshold ≤ r.consecSucc + 1 then .ONLINE
              else .CRITICAL_OUTAGE,
        consecFail := 0, consecSucc := r.consecSucc + 1 } := by
  simp [step, goodProbe]

theorem step_fail (cfg : HealthConfig) (r : LinkRecord) :
    step cfg r failProbe =
      { state :=
          if cfg.failThreshold ≤ r.consecFail + 1 then .CRITICAL_OUTAGE
          else
            match r.state with
            | .ONLINE => .DEGRADED
            | s => s,
        consecFail := r.consecFail + 1, consecSucc := 0 } := by
  simp [step, failProbe]

theorem step_good_unknown (cfg : HealthConfig) (r : LinkRecord)
    (h : r.state = .UNKNOWN) :
    step cfg r goodProbe = ⟨.ONLINE, 0, r.consecSucc + 1⟩ := by
  simp [step, goodProbe, h]

theorem step_good_online (cfg : HealthConfig) (r : LinkRecord)
    (h : r.state = .ONLINE) :
    step cfg r goodProbe = ⟨.ONLINE, 0, r.consecSucc + 1⟩ := by
  simp [step, goodProbe, h]

theorem step_good_degraded (cfg : HealthConfig) (r : LinkRecord)
    (h : r.state = .DEGRADED) :
    step cfg r goodProbe =
      ⟨if cfg.successThreshold ≤ r.consecSucc + 1 then .ONLINE else .DEGRADED, 0,
        r.consecSucc + 1⟩ := by
  simp [step, goodProbe, h]

theorem step_good_critical (cfg : HealthConfig) (r : LinkRecord)
    (h : r.state = .CRITICAL_OUTAGE) :
    step cfg r goodProbe =
      ⟨if cfg.successThreshold ≤ r.consecSucc + 1 then .ONLINE else .CRITICAL_OUTAGE, 0,
        r.consecSucc + 1⟩ := by
  simp [step, goodProbe, h]

theorem step_fail_online (cfg : HealthConfig) (r : LinkRecord)
    (h : r.state = .ONLINE) :
    step cfg r failProbe =
      ⟨if cfg.failThreshold ≤ r.consecFail + 1 then .CRITICAL_OUTAGE else .DEGRADED,
        r.consecFail + 1, 0⟩ := by
  simp [step, failProbe, h]

/-- A run of fully successful probes from an ONLINE record with a clear
failure counter keeps the link ONLINE and accumulates the success counter. -/
theorem run_good_online (cfg : HealthConfig) :
    ∀ (ss : List ProbeResult) (r : LinkRecord), (∀ p ∈ ss, p = goodProbe) →
      r.state = .ONLINE → r.consecFail = 0 →
      run cfg r ss = ⟨.ONLINE, 0, r.consecSucc + ss.length⟩ := by
  intro ss
  induction ss with
  | nil =>
      intro r _ h1 h2
      obtain ⟨s, cf, cs⟩ := r
      simp only at h1 h2
      subst h1; subst h2
      simp [run]
  | cons p ss ih =>
      intro r hall h1 h2
      have hp : p = goodProbe := hall p (by simp)
      subst hp
      rw [run_cons, step_good_online cfg r h1]
      have := ih ⟨.ONLINE, 0, r.consecSucc + 1⟩ (fun q hq => hall q (by simp [hq])) rfl rfl
      rw [this]
      simp only [List.length_cons]
      congr 1
      omega

/-- From an ONLINE record, fully successful probes keep the link ONLINE. -/
theorem run_good_stays (cfg : HealthConfig) :
    ∀ (k : Nat) (r : LinkRecord), r.state = .ONLINE →
      (run cfg r (List.replicate k goodProbe)).state = .ONLINE := by
  intro k
  induction k with
  | zero => intro r h; simpa [run] using h
  | succ k ih =>
      intro r h
      rw [List.replicate_succ, run_cons, step_good_online cfg r h]
      exact ih _ rfl

/-- Below the success threshold, fully successful probes leave a DEGRADED or
CRITICAL_OUTAGE record in its state, accumulating the success counter. -/
theorem run_good_below (cfg : HealthConfig) :
    ∀ (k : Nat) (r : LinkRecord),
      (r.state = .CRITICAL_OUTAGE ∨ r.state = .DEGRADED) →
      r.consecSucc + k < cfg.successThreshold →
      (run cfg r (List.replicate k goodProbe)).state = r.state ∧
        (run cfg r (List.replicate k goodProbe)).consecSucc = r.consecSucc + k := by
  intro k
  induction k with
  | zero => intro r _ _; simp [run]
  | succ k ih =>
      intro r hs hlt
      have hth : ¬ cfg.successThreshold ≤ r.consecSucc + 1 := by omega
      rw [List.replicate_succ, run_cons]
      rcases hs with h | h
      · rw [h, step_good_critical cfg r h, if_neg hth]
        have hrec := ih ⟨.CRITICAL_OUTAGE, 0, r.consecSucc + 1⟩ (Or.inl rfl)
          (by simp; omega)
        refine ⟨hrec.1, ?_⟩
        rw [hrec.2]
        show r.consecSucc + 1 + k = r.consecSucc + (k + 1)
        omega
      · rw [h, step_good_degraded cfg r h, if_neg hth]
        have hrec := ih ⟨.DEGRADED, 0, r.consecSucc + 1⟩ (Or.inr rfl)
          (by simp; omega)
        refine ⟨hrec.1, ?_⟩
        rw [hrec.2]
        show r.consecSucc + 1 + k = r.consecSucc + (k + 1)
        omega

/-- Once enough fully successful probes accumulate to reach the success
threshold, a DEGRADED or CRITICAL_OUTAGE record recovers to ONLINE. -/
theorem run_good_reach (cfg : HealthConfig) :
    ∀ (k : Nat) (r : LinkRecord),
      (r.state = .CRITICAL_OUTAGE ∨ r.state = .DEGRADED) →
      1 ≤ k → cfg.successThreshold ≤ r.consecSucc + k →
      (run cfg r (List.replicate k goodProbe)).state = .ONLINE := by
  intro k
  induction k with
  | zero => intro r _ h _; omega
  | succ k ih =>
      intro r hs _ hth
      rw [List.replicate_succ, run_cons]
      by_cases hc : cfg.successThreshold ≤ r.consecSucc + 1
      · rcases hs with h | h
        · rw [step_good_critical cfg r h, if_pos hc]
          exact run_good_stays cfg k _ rfl
        · rw [step_good_degraded cfg r h, if_pos hc]
          exact run_good_stays cfg k _ rfl
      · have hk : 1 ≤ k := by omega
        rcases hs with h | h
        · rw [step_good_critical cfg r h, if_neg hc]
          exact ih ⟨.CRITICAL_OUTAGE, 0, r.consecSucc + 1⟩ (Or.inl rfl) hk
            (by simp; omega)
        · rw [step_good_degraded cfg r h, if_neg hc]
          exact ih ⟨.DEGRADED, 0, r.consecSucc + 1⟩ (Or.inr rfl) hk (by simp; omega)

/-- Claim C2: a single isolated reachability failure, preceded and followed
by fully successful probes, never drops the link to CRITICAL_OUTAGE, and
the resulting DEGRADED classification is gone after the next successful
probe, for any configuration with failure threshold at least 2 and success
threshold 1 (the defaults of the worked example). -/
theorem hsm_flap_suppression (cfg : HealthConfig) (ss : List ProbeResult)
    (hne : ss ≠ []) (hall : ∀ p ∈ ss, p = goodProbe)
    (hf : 2 ≤ cfg.failThreshold) (hs : cfg.successThreshold = 1) :
    (run cfg initRecord (ss ++ [failProbe])).state ≠ .CRITICAL_OUTAGE ∧
    (run cfg initRecord (ss ++ [failProbe, goodProbe])).state = .ONLINE := by
  match ss, hne with
  | p :: ss, _ =>
    have hp : p = goodProbe := hall p (by simp)
    subst hp
    have hrun : run cfg initRecord (goodProbe :: ss) = ⟨.ONLINE, 0, 1 + ss.length⟩ := by
      rw [run_cons, step_good_unknown cfg initRecord rfl]
      exact run_good_online cfg ss _ (fun q hq => hall q (by simp [hq])) rfl rfl
    have hfailTh : ¬ cfg.failThreshold ≤ 0 + 1 := by omega
    have hafterFail :
        run cfg initRecord ((goodProbe :: ss) ++ [failProbe]) = ⟨.DEGRADED, 1, 0⟩ := by
      rw [run_append, hrun]
      rw [show run cfg ⟨.ONLINE, 0, 1 + ss.length⟩ [failProbe] =
            step cfg ⟨.ONLINE, 0, 1 + ss.length⟩ failProbe from rfl]
      rw [step_fail_online cfg ⟨.ONLINE, 0, 1 + ss.length⟩ rfl]
      simp [hfailTh]
    constructor
    · rw [hafterFail]; simp
    · rw [show (goodProbe :: ss) ++ [failProbe, goodProbe] =
            ((goodProbe :: ss) ++ [failProbe]) ++ [goodProbe] by simp]
      rw [run_append, hafterFail]
      rw [show run cfg ⟨.DEGRADED, 1, 0⟩ [goodProbe] =
            step cfg ⟨.DEGRADED, 1, 0⟩ goodProbe from rfl]
      rw [step_good_degraded cfg ⟨.DEGRADED, 1, 0⟩ rfl]
      simp [hs]

/-- Witness for C2: a single good probe, then the flap, then recovery, at
the default thresholds. -/
theorem hsm_flap_suppression_witness :
    (run defaultConfig initRecord ([goodProbe] ++ [failProbe])).state ≠
      LinkState.CRITICAL_OUTAGE ∧
    (run defaultConfig initRecord ([goodProbe] ++ [failProbe, goodProbe])).state =
      LinkState.ONLINE :=
  hsm_flap_suppression defaultConfig [goodProbe] (by decide)
    (by intro p hp; simpa using hp) (by decide) (by decide)

/-- Claim C3: from CRITICAL_OUTAGE or DEGRADED (with the success counter
cleared, as after a failure), the link recovers to ONLINE exactly when
reachability succeeds with nominal health for the configured
consecutive-success count: that many good probes reach ONLINE, and any
smaller number of good probes leaves the state unchanged — in particular a
single success from CRITICAL_OUTAGE does not reach ONLINE when the
threshold exceeds 1. -/
theorem hsm_recovery_threshold (cfg : HealthConfig) (r : LinkRecord)
    (hs : r.state = .CRITICAL_OUTAGE ∨ r.state = .DEGRADED)
    (hcs : r.consecSucc = 0) (hth : 1 ≤ cfg.successThreshold) :
    (run cfg r (List.replicate cfg.successThreshold goodProbe)).state = .ONLINE ∧
    ∀ k, k < cfg.successThreshold →
      (run cfg r (List.replicate k goodProbe)).state = r.state := by
  constructor
  · exact run_good_reach cfg cfg.successThreshold r hs hth (by omega)
  · intro k hk
    exact (run_good_below cfg k r hs (by omega)).1

/-- Witness for C3: with success threshold 2, one good probe leaves a fresh
CRITICAL_OUTAGE record in CRITICAL_OUTAGE, two good probes recover it. -/
theorem hsm_recovery_threshold_witness :
    (run ⟨3, 2⟩ ⟨.CRITICAL_OUTAGE, 3, 0⟩ (List.replicate 2 goodProbe)).state =
      LinkState.ONLINE ∧
    (run ⟨3, 2⟩ ⟨.CRITICAL_OUTAGE, 3, 0⟩ (List.replicate 1 goodProbe)).state =
      LinkState.CRITICAL_OUTAGE := by
  have h := hsm_recovery_threshold ⟨3, 2⟩ ⟨.CRITICAL_OUTAGE, 3, 0⟩ (Or.inl rfl) rfl
    (by decide)
  exact ⟨h.1, h.2 1 (by decide)⟩

/-- Claim C4: at every observation point the state is one of the four
enumeration values, each link has exactly one current state, and the state
is a pure function of the probe history (it is computed by `run`, never set
directly). -/
theorem linkState_exhaustive_and_deterministic (cfg : HealthConfig)
    (ps : List ProbeResult) :
    ((run cfg initRecord ps).state = .UNKNOWN ∨
      (run cfg initRecord ps).state = .ONLINE ∨
      (run cfg initRecord ps).state = .DEGRADED ∨
      (run cfg initRecord ps).state = .CRITICAL_OUTAGE) ∧
    (∃! s : LinkState, (run cfg initRecord ps).state = s) := by
  refine ⟨?_, ⟨(run cfg initRecord ps).state, rfl, fun y hy => hy.symm⟩⟩
  cases h : (run cfg initRecord ps).state <;> simp

/-! ## Scan scheduler aggregates (modelled from the spec, section 4.3) -/

/-- Aggregate count of links whose current state equals `s`, derived from
the per-link state table. -/
def countState (tbl : List LinkRecord) (s : LinkState) : Nat :=
  (tbl.filter (fun r => r.state == s)).length

/-- Modelled from the spec: one scan cycle over an inventory snapshot —
each link's probe result for the cycle is fed through the state machine
and the updated records form the new state table. -/
def runCycle (cfg : HealthConfig) (xs : List (LinkRecord × ProbeResult)) :
    List LinkRecord :=
  xs.map (fun e => step cfg e.1 e.2)

theorem countState_partition (tbl : List LinkRecord) :
    countState tbl .ONLINE + countState tbl .DEGRADED +
      countState tbl .CRITICAL_OUTAGE + countState tbl .UNKNOWN = tbl.length := by
  induction tbl with
  | nil => simp [countState]
  | cons r t ih =>
      cases hs : r.state <;> simp [countState, List.filter_cons, hs] at ih ⊢ <;> omega

/-- Claim C5: after a completed scan cycle the aggregate counts, derived
from the per-link state table, sum to the inventory size. -/
theorem aggregate_counts_total (cfg : HealthConfig)
    (xs : List (LinkRecord × ProbeResult)) :
    countState (runCycle cfg xs) .ONLINE + countState (runCycle cfg xs) .DEGRADED +
      countState (runCycle cfg xs) .CRITICAL_OUTAGE +
      countState (runCycle cfg xs) .UNKNOWN = xs.length := by
  have h := countState_partition (runCycle cfg xs)
  simpa [runCycle] using h

/-! ## Diagnostic Engine (modelled from the spec, section 4.4) -/

/-- Modelled from the spec: the three hops of the diagnostic trace. -/
inductive Hop
  | gateway
  | base
  | client
  deriving DecidableEq, Repr

/-- Modelled from the spec: the outcome of probing one hop — reachable with
a measured latency, or a failure class reported in the trace itself. -/
inductive HopOutcome
  | ok (latency : Nat)
  | probeTimeout
  | unreachable
  deriving DecidableEq, Repr

/-- Modelled from the spec: one hop's entry in a trace report. -/
structure HopResult where
  target : Hop
  outcome : HopOutcome
  deriving DecidableEq, Repr

/-- Modelled from the spec: the ordered trace report returned to the
caller; never persisted. -/
structure TraceReport where
  hops : List HopResult
  deriving DecidableEq, Repr

/-- Modelled from the spec: the fixed hop order gateway, base, client. -/
def hopSequence : List Hop := [.gateway, .base, .client]

/-- Modelled from the spec: probe every hop in order, recording each
outcome; a failure at an earlier hop does not skip later hops. The network
is modelled as a function from hop to outcome. -/
def runHops (env : Hop → HopOutcome) : List Hop → List HopResult
  | [] => []
  | h :: hs => ⟨h, env h⟩ :: runHops env hs

/-- Modelled from the spec: the Diagnostic Engine's synchronous 3-hop
trace (the engine's source is not in the repository snapshot). -/
def runDiagnostic (env : Hop → HopOutcome) : TraceReport :=
  ⟨runHops env hopSequence⟩

/-- Claim C6: every diagnostic run reports all three hops in the order
gateway, base, client, each hop carrying its own probe outcome; in
particular the client hop's result is present whatever the gateway
outcome is. -/
theorem diagnostic_attempts_all_hops (env : Hop → HopOutcome) :
    (runDiagnostic env).hops.map HopResult.target = [Hop.gateway, Hop.base, Hop.client] ∧
    (∀ hr ∈ (runDiagnostic env).hops, hr.outcome = env hr.target) ∧
    ∃ hr ∈ (runDiagnostic env).hops,
      hr.target = Hop.client ∧ hr.outcome = env Hop.client := by
  refine ⟨rfl, ?_, ?_⟩
  · intro hr hhr
    simp [runDiagnostic, runHops, hopSequence] at hhr
    rcases hhr with h | h | h <;> subst h <;> rfl
  · refine ⟨⟨.client, env .client⟩, ?_, rfl, rfl⟩
    simp [runDiagnostic, runHops, hopSequence]

/-- The shared mutable state of the monitor: the per-link state table. -/
structure SystemState where
  table : List LinkRecord
  deriving DecidableEq, Repr

/-- Modelled from the spec: a diagnostic run against the live system — it
returns its report together with the per-link state table, which it only
reads (for addressing data) and never mutates. -/
def runDiagnosticOn (env : Hop → HopOutcome) (sys : SystemState) :
    TraceReport × SystemState :=
  (runDiagnostic env, sys)

/-- Claim C8: diagnostics are read-only with respect to the per-link state
records: a diagnostic run leaves the whole state table unchanged and
produces exactly the standalone trace report. -/
theorem diagnostic_frame (env : Hop → HopOutcome) (sys : SystemState) :
    (runDiagnosticOn env sys).2 = sys ∧
    (runDiagnosticOn env sys).1 = runDiagnostic env :=
  ⟨rfl, rfl⟩

/-! ## Store adapter write policy (modelled from the spec, sections 6 and 7) -/

/-- Modelled from the spec: outcome of a single `put` attempt against the
status store. -/
inductive PutOutcome
  | ok
  | storeUnavailable
  deriving DecidableEq, Repr

/-- Modelled from the spec: the store's behaviour towards one link's write
this cycle — the outcome of the first attempt and of the (potential)
retry. -/
structure WriteBehavior where
  first : PutOutcome
  second : PutOutcome
  deriving DecidableEq, Repr

/-- Modelled from the spec: how many `put` attempts the adapter makes —
one, plus exactly one retry when the first reports StoreUnavailable. -/
def putAttempts (w : WriteBehavior) : Nat :=
  match w.first with
  | .ok => 1
  | .storeUnavailable => 2

/-- Modelled from the spec: whether the write lands within the one-retry
budget. -/
def putSucceeds (w : WriteBehavior) : Bool :=
  match w.first with
  | .ok => true
  | .storeUnavailable =>
      match w.second with
      | .ok => true
      | .storeUnavailable => false

/-- Modelled from the spec: persist one link's cycle update — when the
write fails both attempts the update is dropped and the stored record
keeps its last known value. -/
def persistLink (cfg : HealthConfig)
    (e : LinkRecord × ProbeResult × WriteBehavior) : LinkRecord :=
  if putSucceeds e.2.2 then step cfg e.1 e.2.1 else e.1

/-- Modelled from the spec: a full cycle written through the store adapter,
link by link, independently — no cycle-wide abort. -/
def runCycleStore (cfg : HealthConfig)
    (xs : List (LinkRecord × ProbeResult × WriteBehavior)) : List LinkRecord :=
  xs.map (persistLink cfg)

/-- Claim C7: a failing `put` is retried at most once; when both attempts
report StoreUnavailable the link's update for the cycle is dropped and its
persisted record keeps its last known value, every other link of the cycle
is still processed, and the store failure never surfaces as a link-level
outage (it cannot turn a non-critical state into CRITICAL_OUTAGE). -/
theorem store_put_retry_policy (cfg : HealthConfig) (r : LinkRecord)
    (p : ProbeResult) (w : WriteBehavior)
    (pre post : List (LinkRecord × ProbeResult × WriteBehavior))
    (h1 : w.first = .storeUnavailable) (h2 : w.second = .storeUnavailable) :
    putAttempts w ≤ 2 ∧
    persistLink cfg (r, p, w) = r ∧
    runCycleStore cfg (pre ++ (r, p, w) :: post) =
      runCycleStore cfg pre ++ r :: runCycleStore cfg post ∧
    (r.state ≠ .CRITICAL_OUTAGE → (persistLink cfg (r, p, w)).state ≠ .CRITICAL_OUTAGE) := by
  have hfail : putSucceeds w = false := by simp [putSucceeds, h1, h2]
  have hp : persistLink cfg (r, p, w) = r := by simp [persistLink, hfail]
  refine ⟨by simp [putAttempts, h1], hp, ?_, ?_⟩
  · simp [runCycleStore, hp]
  · intro h
    rw [hp]
    exact h

/-- Witness for C7: a concrete doubly-failing write keeps the stored record
at its last known value within the two-attempt budget. -/
theorem store_put_retry_policy_witness :
    putAttempts ⟨.storeUnavailable, .storeUnavailable⟩ ≤ 2 ∧
    persistLink defaultConfig
      (initRecord, failProbe, ⟨.storeUnavailable, .storeUnavailable⟩) = initRecord := by
  have h := store_put_retry_policy defaultConfig initRecord failProbe
    ⟨.storeUnavailable, .storeUnavailable⟩ [] [] rfl rfl
  exact ⟨h.1, h.2.1⟩

/-- Claim C9: for every hostname, `getBaseURL` returns the development URL
exactly when the hostname is localhost, 127.0.0.1 or empty, and otherwise
the production URL; it always returns one of those two non-empty strings.
Holds for both the Render and the AmberIT variant. -/
theorem getBaseURL_env_selection (h : String) :
    ((ConfigRender.getBaseURL h = ConfigRender.development) ↔
      (h = "localhost" ∨ h = "127.0.0.1" ∨ h = "")) ∧
    ((ConfigRender.getBaseURL h = ConfigRender.production) ↔
      ¬(h = "localhost" ∨ h = "127.0.0.1" ∨ h = "")) ∧
    (ConfigRender.getBaseURL h = ConfigRender.development ∨
      ConfigRender.getBaseURL h = ConfigRender.production) ∧
    ConfigRender.development ≠ "" ∧ ConfigRender.production ≠ "" ∧
    ((ConfigAmber.getBaseURL h = ConfigAmber.development) ↔
      (h = "localhost" ∨ h = "127.0.0.1" ∨ h = "")) ∧
    (ConfigAmber.getBaseURL h = ConfigAmber.development ∨
      ConfigAmber.getBaseURL h = ConfigAmber.production) ∧
    ConfigAmber.development ≠ "" ∧ ConfigAmber.production ≠ "" := by
  by_cases hl : h = "localhost" ∨ h = "127.0.0.1" ∨ h = "" <;>
    simp [ConfigRender.getBaseURL, ConfigRender.development, ConfigRender.production,
      ConfigAmber.getBaseURL, ConfigAmber.development, ConfigAmber.production, hl]

/-- Claim C10: in the localStorage-aware variant, a truthy stored custom URL
is returned verbatim, overriding localhost detection and the production
default, regardless of the hostname. -/
theorem getBaseURL_custom_override (u hostname : String) (hu : u ≠ "") :
    ConfigCustom.getBaseURL (some u) hostname = u := by
  simp [ConfigCustom.getBaseURL, hu]

/-- Witness for C10 at a concrete stored URL and a non-localhost hostname. -/
theorem getBaseURL_custom_override_witness :
    ConfigCustom.getBaseURL (some "https://abc.ngrok-free.app") "example.github.io" =
      "https://abc.ngrok-free.app" :=
  getBaseURL_custom_override "https://abc.ngrok-free.app" "example.github.io" (by decide)
